import Mathlib

set_option autoImplicit false

/-!
Verification of the academy actor-runtime core against its specification.

The definitions below are a shallow embedding of the relevant source
modules:

* `src/academy/exchange/thread.py` — in-process exchange (`ThreadExchange`,
  `BoundThreadExchangeClient`): registration, termination, discovery, send,
  client close, client construction.
* `src/academy/exchange/__init__.py` — the abstract `BoundExchangeClient`,
  in particular `get_handle`.
* `src/academy/exchange/cloud/client.py` — the HTTP exchange client `send`
  status-code mapping.
* `src/academy/handle.py` — `RemoteHandle.action` (its effect trace) and
  `RemoteHandle.__getattr__` attribute dispatch.
* `src/academy/manager.py` — `Manager._run_agent_in_executor` (restart
  loop), `Manager.close`, `Manager.get_handle`.
* `src/academy/launcher.py` — `Launcher._run_agent` (restart loop).
* `src/academy/exception.py` — `raise_exceptions`.

Modules of the repository that the above import but that are not present
under `src/` (`academy/exchange/queue.py`, `academy/message.py`,
`academy/identifier.py`, the HTTP server routes of
`academy/exchange/cloud/server.py`) are modelled from the specification;
each such definition is marked `Modelled from the spec:` in its doc
comment.

Python machine integers do not appear in the embedded code paths; counters
are modelled as `Nat`. UUIDs (entity uids, message tags, handle labels)
are modelled as `Nat` parameters since only freshness/equality matters.
-/

namespace Academy

/-- Entity identifiers. Source: `academy/identifier.py` is not under
`src/`. Modelled from the spec: an `EntityId` is a union of a user/client
id and an agent id, each carrying a 128-bit identifier compared by
equality; the uid is modelled as a `Nat`. -/
inductive EntityId where
  | client (uid : Nat)
  | agent (uid : Nat)
deriving DecidableEq, Repr

/-- `isinstance(uid, AgentId)` of the source. -/
def EntityId.isAgent : EntityId → Bool
  | .agent _ => true
  | .client _ => false

/-- A Python behavior type, identified by its qualified name together with
the names of its proper ancestors (base classes), most-derived first.
Source: `academy/behavior.py` is not under `src/`. Modelled from the spec:
AgentIds carry "the ordered list of behavior type names from most-derived
to base (the behavior ancestry)". -/
structure BehaviorType where
  name : String
  bases : List String
deriving DecidableEq, Repr

/-- The method resolution order of a behavior type: the type itself
followed by its ancestors. -/
def BehaviorType.mro (t : BehaviorType) : List String := t.name :: t.bases

/-- `issubclass(t, b)` of Python: `b` occurs in the MRO of `t` (reflexive:
`t.name` heads `t.mro`). -/
def pyIsSubcls (t b : BehaviorType) : Bool := decide (b.name ∈ t.mro)

/-- Message body variants. Source: `academy/message.py` is not under
`src/`. Modelled from the spec: body is a sum of requests
`Action(name, pargs, kargs) | Ping | Shutdown(terminate?) |
Cancel(target_tag)` and responses
`ActionResult(value) | Error(exception) | Success | Ping`. Payloads not
needed by the claims are omitted. -/
inductive MsgBody where
  | actionRequest (action : String)
  | pingRequest
  | shutdownRequest (terminate : Option Bool)
  | cancelRequest (targetTag : Nat)
  | actionResponse
  | errorResponse
  | successResponse
  | pingResponse
deriving DecidableEq, Repr

/-- Whether a body is a cancellation request. -/
def MsgBody.isCancelRequest : MsgBody → Bool
  | .cancelRequest _ => true
  | _ => false

/-- A message. Modelled from the spec: immutable record
`{tag, src, dest, label, body, created_at}`; `created_at` plays no role in
any claim and is omitted; `tag` and `label` are modelled as `Nat`. -/
structure Message where
  tag : Nat
  src : EntityId
  dest : EntityId
  label : Nat
  body : MsgBody
deriving DecidableEq, Repr

/-- Error taxonomy of the exchange layer, from `academy/exception.py` and
`academy/exchange/exception.py` (the source class `MailboxClosedError` of
`thread.py` is the taxonomy's `MailboxTerminated`), plus the Python-level
failures needed by the claims. -/
inductive PyErr where
  | badEntityId (uid : EntityId)
  | mailboxTerminated (uid : EntityId)
  | typeError
  | unboundLocal (name : String)
  | keyError
  | httpStatusError (code : Nat)
deriving DecidableEq, Repr

/-- A mailbox queue. Source: `academy/exchange/queue.py` is not under
`src/`. Modelled from the spec: a mailbox holds an ordered FIFO queue of
messages and is either accepting (ACTIVE) or closed (TERMINATED);
`put` on a closed queue fails with the queue-closed error. -/
structure Queue where
  messages : List Message
  closed : Bool
deriving DecidableEq, Repr

/-- A fresh open queue (`Queue()` of the source). -/
def Queue.empty : Queue := { messages := [], closed := false }

/-- `Queue.close()`: mark the queue closed; absorbing. -/
def Queue.close (q : Queue) : Queue := { q with closed := true }

/-- `Queue.put(message)`: enqueue, or fail when closed
(`QueueClosedError`). -/
def Queue.put (q : Queue) (m : Message) : Option Queue :=
  if q.closed then none
  else some { q with messages := q.messages ++ [m] }

/-- Association-list lookup, the embedding of Python `dict.get(k, None)` /
`k in d` (first binding wins; the operations below keep keys unique). -/
def alistLookup {α : Type} : List (EntityId × α) → EntityId → Option α
  | [], _ => none
  | (k2, v) :: rest, k => if k2 = k then some v else alistLookup rest k

/-- Association-list update `d[k] = v`. -/
def alistInsert {α : Type} : List (EntityId × α) → EntityId → α → List (EntityId × α)
  | [], k, v => [(k, v)]
  | (k2, v2) :: rest, k, v =>
      if k2 = k then (k, v) :: rest else (k2, v2) :: alistInsert rest k v

/-- Association-list removal `d.pop(k, None)`. -/
def alistErase {α : Type} : List (EntityId × α) → EntityId → List (EntityId × α)
  | [], _ => []
  | (k2, v2) :: rest, k =>
      if k2 = k then rest else (k2, v2) :: alistErase rest k

/-- State of the in-process exchange
(`ThreadExchange.__init__`, `src/academy/exchange/thread.py`):
`queues: dict[EntityId, Queue]` and
`behaviors: dict[AgentId, type[Behavior]]`. -/
structure ThreadExchange where
  queues : List (EntityId × Queue)
  behaviors : List (EntityId × BehaviorType)
deriving DecidableEq, Repr

/-- `BoundThreadExchangeClient.register_agent`
(`src/academy/exchange/thread.py`): if the id is absent or its queue is
closed, install a fresh queue and record the behavior; otherwise leave the
exchange unchanged. -/
def ThreadExchange.registerAgent (st : ThreadExchange) (aid : EntityId)
    (behavior : BehaviorType) : ThreadExchange :=
  if (match alistLookup st.queues aid with
      | none => true
      | some q => q.closed) then
    { queues := alistInsert st.queues aid Queue.empty
      behaviors := alistInsert st.behaviors aid behavior }
  else st

/-- `BoundThreadExchangeClient.terminate`
(`src/academy/exchange/thread.py`): close the queue when it exists and is
not already closed (for agents also dropping the behavior record);
otherwise a no-op. -/
def ThreadExchange.terminate (st : ThreadExchange) (uid : EntityId) : ThreadExchange :=
  match alistLookup st.queues uid with
  | none => st
  | some q =>
      if q.closed then st
      else
        { queues := alistInsert st.queues uid q.close
          behaviors := if uid.isAgent then alistErase st.behaviors uid else st.behaviors }

/-- `BoundThreadExchangeClient.send` (`src/academy/exchange/thread.py`):
missing destination fails with `BadEntityIdError`; a closed queue makes
`put` raise, re-raised as `MailboxClosedError` (the taxonomy's
MailboxTerminated). -/
def ThreadExchange.send (st : ThreadExchange) (uid : EntityId) (m : Message) :
    Except PyErr ThreadExchange :=
  match alistLookup st.queues uid with
  | none => .error (.badEntityId uid)
  | some q =>
      match q.put m with
      | none => .error (.mailboxTerminated uid)
      | some q2 => .ok { st with queues := alistInsert st.queues uid q2 }

/-- The generator filter of `discover`:
`tuple(aid for aid in found if not self._state.queues[aid].closed())`.
A `found` id missing from `queues` is a Python `KeyError`, modelled as
`none`. -/
def ThreadExchange.aliveFilter (st : ThreadExchange) : List EntityId → Option (List EntityId)
  | [] => some []
  | aid :: rest =>
      match alistLookup st.queues aid with
      | none => none
      | some q =>
          match st.aliveFilter rest with
          | none => none
          | some tail => some (if q.closed then tail else aid :: tail)

/-- `BoundThreadExchangeClient.discover`
(`src/academy/exchange/thread.py`): collect the agents whose registered
behavior is the queried type (`behavior is type_`) or, when subclasses are
allowed, a subclass of it; then keep only those whose queue is not
closed. -/
def ThreadExchange.discover (st : ThreadExchange) (b : BehaviorType)
    (allowSubcls : Bool) : Option (List EntityId) :=
  st.aliveFilter (st.behaviors.filterMap
    (fun p => if decide (p.2 = b) || (allowSubcls && pyIsSubcls p.2 b)
              then some p.1 else none))

/-- A bound thread-exchange client: its mailbox id and whether it was
constructed with a request handler (`request_handler is not None`). -/
structure BoundThreadClient where
  mailboxId : EntityId
  hasHandler : Bool
deriving DecidableEq, Repr

/-- `BoundThreadExchangeClient.close` (`src/academy/exchange/thread.py`):
when the client has no request handler, terminate its own mailbox; then —
quoting the source docstring, "Unlike most exchange clients, this will
close all of the mailboxes" — close every queue of the shared exchange
state. -/
def BoundThreadClient.closeClient (c : BoundThreadClient) (st : ThreadExchange) :
    ThreadExchange :=
  let st1 := if c.hasHandler then st else st.terminate c.mailboxId
  { st1 with queues := st1.queues.map (fun p => (p.1, p.2.close)) }

/-- `BoundThreadExchangeClient.__init__`
(`src/academy/exchange/thread.py` lines 74-102). The local variable `cid`
is assigned only on the mailbox-creating branch (`entity_id is None`); the
subsequent statement `self._queue = self._state.queues[cid]` reads `cid`
unconditionally, so on the agent-binding branch it raises
`UnboundLocalError`. `freshUid` stands for the uid of `ClientId.new()`. -/
def threadClientInit (st : ThreadExchange) (entityId : Option EntityId)
    (freshUid : Nat) (hasHandler : Bool) :
    Except PyErr (BoundThreadClient × ThreadExchange) :=
  -- The if/else on `entity_id`: yields the value of the local `cid`
  -- (`none` when the branch left it unassigned), the mailbox id, and the
  -- updated exchange state, or raises `BadEntityIdError`.
  let branch : Except PyErr (Option EntityId × EntityId × ThreadExchange) :=
    match entityId with
    | none =>
        let cid := EntityId.client freshUid
        .ok (some cid, cid, { st with queues := alistInsert st.queues cid Queue.empty })
    | some eid =>
        match alistLookup st.queues eid with
        | none => .error (.badEntityId eid)
        | some _ => .ok (none, eid, st)
  match branch with
  | .error e => .error e
  | .ok (cid, mailboxId, st1) =>
      -- `self._queue = self._state.queues[cid]`
      match cid with
      | none => .error (.unboundLocal "cid")
      | some c =>
          match alistLookup st1.queues c with
          | none => .error .keyError
          | some _ => .ok ({ mailboxId := mailboxId, hasHandler := hasHandler }, st1)

/-- A handle as produced by `BoundExchangeClient.get_handle`
(`src/academy/exchange/__init__.py`): only its target agent id matters to
the claims. -/
structure BaseHandle where
  agentId : EntityId
deriving DecidableEq, Repr

/-- `BoundExchangeClient.get_handle(aid)`
(`src/academy/exchange/__init__.py` lines 325-355): raise `TypeError`
unless `aid` is an `AgentId`, otherwise construct the handle and register
it in `bound_handles`. The body performs no comparison of `aid` with the
client's own `mailbox_id`. -/
def baseGetHandle (_selfMailboxId : EntityId) (aid : EntityId) :
    Except PyErr BaseHandle :=
  if aid.isAgent then
    -- hdl = BoundRemoteHandle(self, aid, self.mailbox_id);
    -- self.bound_handles[hdl.handle_id] = hdl
    .ok { agentId := aid }
  else .error .typeError

/-- The observable steps of `RemoteHandle.action`
(`src/academy/handle.py` lines 323-361), in source order. -/
inductive HandleEffect where
  | registerWithExchange
  | storeFuture (tag : Nat)
  | sendMsg (m : Message)
  | awaitFuture (tag : Nat)
deriving DecidableEq, Repr

/-- The complete effect trace of `RemoteHandle.action`
(`src/academy/handle.py` lines 323-361): register with the exchange,
create the `ActionRequest` message, store the pending future under the
message tag, send the request, await the future. The method installs no
cancellation handler — there is no `try/except CancelledError` around the
await — so a cancellation at any point merely truncates this trace. -/
def actionEffects (src dest : EntityId) (label tag : Nat) (action : String) :
    List HandleEffect :=
  [ .registerWithExchange,
    .storeFuture tag,
    .sendMsg { tag := tag, src := src, dest := dest, label := label
               body := .actionRequest action },
    .awaitFuture tag ]

/-- The messages sent by a (possibly truncated) effect trace. -/
def effectSends (effects : List HandleEffect) : List Message :=
  effects.filterMap (fun e => match e with | .sendMsg m => some m | _ => none)

/-- The attribute names defined on `RemoteHandle`
(`src/academy/handle.py`): instance attributes set in `__init__` plus the
methods and properties of the class body. Any other attribute access falls
into `__getattr__`. -/
def remoteHandleAttrs : List String :=
  ["agent_id", "_registered_exchanges", "handle_id", "_futures",
   "exchange", "action", "ping", "shutdown",
   "_process_response", "_register_with_exchange"]

/-- Result of a Python attribute access on a `RemoteHandle`. -/
inductive PyAttr where
  | defined (name : String)
  | viaGetattr (name : String)
deriving DecidableEq, Repr

/-- Attribute dispatch on `RemoteHandle`: a name in the class/instance
dictionary resolves normally; any other name reaches
`RemoteHandle.__getattr__` (`src/academy/handle.py` lines 288-292), which
returns the `remote_method_call` closure. -/
def remoteHandleGetattr (name : String) : PyAttr :=
  if remoteHandleAttrs.contains name then .defined name else .viaGetattr name

/-- Python truthiness of the value of `handle.<name>()` when `<name>`
resolved through `__getattr__`: calling `remote_method_call` returns an
unawaited coroutine object, and `bool(<coroutine>)` is `True`. -/
def getattrCallTruthy : Bool := true

/-- The value of the guard `not handle.closed()` in `Manager.get_handle`
(`src/academy/manager.py` lines 396-398): `closed` is not among
`remoteHandleAttrs`, so the call produces a truthy coroutine and the
negation is `false`. The `defined` branch (a real `closed` method, absent
from the source) is modelled as deferring to the given closedness flag. -/
def notHandleClosedGuard (realClosed : Bool) : Bool :=
  match remoteHandleGetattr "closed" with
  | .defined _ => !realClosed
  | .viaGetattr _ => !getattrCallTruthy

/-- The manager's handle model: target id plus the object identity of the
handle (`handle_id`, a fresh uuid per constructed handle). -/
structure MgrHandle where
  agentId : EntityId
  handleId : Nat
deriving DecidableEq, Repr

/-- Manager state relevant to `get_handle`: the cache
`self._handles: dict[AgentId, RemoteHandle]` and a supply of fresh handle
identities. -/
structure ManagerState where
  handles : List (EntityId × MgrHandle)
  nextHandleId : Nat
deriving DecidableEq, Repr

/-- The miss path of `Manager.get_handle`: build a new handle via
`self.exchange_client.get_handle(agent_id)` and cache it. -/
def managerNewHandle (st : ManagerState) (aid : EntityId) : MgrHandle × ManagerState :=
  let h : MgrHandle := { agentId := aid, handleId := st.nextHandleId }
  (h, { handles := alistInsert st.handles aid h, nextHandleId := st.nextHandleId + 1 })

/-- `Manager.get_handle(agent_id)` (`src/academy/manager.py` lines
378-401): return the cached handle when one exists and
`not handle.closed()` holds; otherwise create and cache a new handle. -/
def managerGetHandle (st : ManagerState) (aid : EntityId) : MgrHandle × ManagerState :=
  match alistLookup st.handles aid with
  | some h =>
      if notHandleClosedGuard false then (h, st)
      else managerNewHandle st aid
  | none => managerNewHandle st aid

/-- Result of `Manager.close` (`src/academy/manager.py` lines 185-214):
whether an agent error escaped (and which), and whether the exchange
client and the executors were released. Agent errors are identified by
`Nat` tokens. -/
structure ManagerCloseResult where
  raised : Option Nat
  exchangeClosed : Bool
  executorsShutdown : Bool
deriving DecidableEq, Repr

/-- The `for acb in self._acbs.values(): await acb.task;
acb.task.result()` loop of `Manager.close`: `result()` re-raises the
first stored agent error, aborting the loop. -/
def firstTaskError : List (Option Nat) → Option Nat
  | [] => none
  | some e :: _ => some e
  | none :: rest => firstTaskError rest

/-- `Manager.close` (`src/academy/manager.py` lines 185-214) for a manager
whose agent tasks have all completed with the given outcomes (`some e` =
task stored error `e`, `none` = clean exit): the per-task `result()` loop
re-raises the first error, and only when no task errored does control
reach `await self.exchange_client.close()` and the executor shutdown
loop. -/
def managerClose (taskErrors : List (Option Nat)) : ManagerCloseResult :=
  match firstTaskError taskErrors with
  | some e => { raised := some e, exchangeClosed := false, executorsShutdown := false }
  | none => { raised := none, exchangeClosed := true, executorsShutdown := true }

/-- Outcome of `raise_exceptions` (`src/academy/exception.py` lines
60-91) on Python ≥ 3.11: nothing for an empty iterable, the sole
exception re-raised directly, several exceptions raised as a group. -/
inductive RaiseOutcome where
  | nothing
  | single (e : Nat)
  | group (es : List Nat)
deriving DecidableEq, Repr

/-- `raise_exceptions(excs)` (`src/academy/exception.py` lines 60-91),
Python ≥ 3.11 path. -/
def raiseExceptions : List Nat → RaiseOutcome
  | [] => .nothing
  | [e] => .single e
  | es => .group es

/-- Outcome of a manager restart loop. -/
inductive ManagerRunOutcome where
  | completed
  | raised
deriving DecidableEq, Repr

/-- The `while True` loop of `Manager._run_agent_in_executor`
(`src/academy/manager.py` lines 257-315), structurally recursive on the
`retries` counter. Arguments: `origTerm` is the `terminate_on_error` field
of the user-supplied config, `fails k` tells whether the k-th run of the
agent (1-based) exits with an error, `retries` and `runCount` are the loop
variables. Returns the list of performed runs as
`(run_count, terminate_on_error of the config used)` plus the outcome.
Each iteration increments `run_count`; when `retries > 0` it decrements
`retries` and overrides the config with `terminate_on_error=False`,
otherwise it keeps the original config; a failed run re-raises when
`retries == 0` after the decrement and otherwise restarts. -/
def managerGo (origTerm : Bool) (fails : Nat → Bool) :
    Nat → Nat → List (Nat × Bool) × ManagerRunOutcome
  | 0, runCount =>
      let rc := runCount + 1
      if fails rc then ([(rc, origTerm)], .raised)
      else ([(rc, origTerm)], .completed)
  | r + 1, runCount =>
      let rc := runCount + 1
      if fails rc then
        if r = 0 then ([(rc, false)], .raised)
        else
          let rest := managerGo origTerm fails r rc
          ((rc, false) :: rest.1, rest.2)
      else ([(rc, false)], .completed)

/-- `Manager._run_agent_in_executor` with `max_retries = maxRetries`. -/
def managerRun (origTerm : Bool) (fails : Nat → Bool) (maxRetries : Nat) :
    List (Nat × Bool) × ManagerRunOutcome :=
  managerGo origTerm fails maxRetries 0

/-- Outcome of the launcher restart loop: `completed` when some run of the
agent finished without error; `failedExit` when the loop ended after
failures — note `Launcher._run_agent` never re-raises, so in both cases the
task finishes without an exception. -/
inductive LauncherRunOutcome where
  | completed
  | failedExit
deriving DecidableEq, Repr

/-- The `while run_count <= self._max_restarts` loop of
`Launcher._run_agent` (`src/academy/launcher.py` lines 78-129). The first
(fuel) argument bounds the remaining iterations; callers pass
`maxRestarts + 1 - runCount`, which dominates the loop guard, so the
fuel-exhausted branch is unreachable. Each iteration increments
`run_count`, overrides the config with `terminate_on_error=False` when
`run_count < max_restarts` and keeps the original config otherwise, and on
a failed run breaks (without re-raising) when `run_count == max_restarts`.
-/
def launcherGo (maxRestarts : Nat) (origTerm : Bool) (fails : Nat → Bool) :
    Nat → Nat → List (Nat × Bool) × LauncherRunOutcome
  | 0, _ => ([], .failedExit)
  | fuel + 1, runCount =>
      if runCount ≤ maxRestarts then
        let rc := runCount + 1
        let cfgTerm := if rc < maxRestarts then false else origTerm
        if fails rc then
          if rc = maxRestarts then ([(rc, cfgTerm)], .failedExit)
          else
            let rest := launcherGo maxRestarts origTerm fails fuel rc
            ((rc, cfgTerm) :: rest.1, rest.2)
        else ([(rc, cfgTerm)], .completed)
      else ([], .failedExit)

/-- `Launcher._run_agent` with `max_restarts = maxRestarts`. -/
def launcherRun (maxRestarts : Nat) (origTerm : Bool) (fails : Nat → Bool) :
    List (Nat × Bool) × LauncherRunOutcome :=
  launcherGo maxRestarts origTerm fails (maxRestarts + 1) 0

/-- Mailbox states as seen by the HTTP exchange server. -/
inductive MailboxStatus where
  | missing
  | active
  | terminated
deriving DecidableEq, Repr

/-- The HTTP status code for an unknown entity
(`_NOT_FOUND_CODE` imported by `src/academy/exchange/cloud/client.py`).
Modelled from the spec: `academy/exchange/cloud/server.py` is not under
`src/`; the spec's wire protocol assigns 404 to BadEntity. -/
def notFoundCode : Nat := 404

/-- The HTTP status code for forbidden / terminated mailboxes
(`_FORBIDDEN_CODE`). Modelled from the spec: 403 covers Forbidden and
MailboxTerminated. -/
def forbiddenCode : Nat := 403

/-- The `PUT /message` route of the HTTP exchange server. Modelled from
the spec: `academy/exchange/cloud/server.py` is not under `src/`; per the
spec's wire protocol the server answers 404 when the destination mailbox
does not exist, 403 when it is terminated, and 200 on success. The
registry maps entity ids to their mailbox status (absent = MISSING). -/
def httpServerPutMessage (registry : List (EntityId × MailboxStatus))
    (dest : EntityId) : Nat :=
  match alistLookup registry dest with
  | none => notFoundCode
  | some .missing => notFoundCode
  | some .terminated => forbiddenCode
  | some .active => 200

/-- The status-code handling of `BoundHttpExchangeClient.send`
(`src/academy/exchange/cloud/client.py` lines 290-310): 404 raises
`BadEntityIdError`, 403 raises `MailboxClosedError`, any other non-2xx
raises via `raise_for_status`. -/
def httpSendResult (uid : EntityId) (statusCode : Nat) : Except PyErr Unit :=
  if statusCode = notFoundCode then .error (.badEntityId uid)
  else if statusCode = forbiddenCode then .error (.mailboxTerminated uid)
  else if 200 ≤ statusCode ∧ statusCode < 300 then .ok ()
  else .error (.httpStatusError statusCode)

/-- An HTTP send end to end: the server route composed with the client's
status-code handling. -/
def httpSend (registry : List (EntityId × MailboxStatus)) (uid : EntityId) :
    Except PyErr Unit :=
  httpSendResult uid (httpServerPutMessage registry uid)

/-- A run-failure pattern: the agent's setup fails on its first two runs
and succeeds from the third on. -/
def failsFirstTwo (k : Nat) : Bool := decide (k ≤ 2)

/-- A run-failure pattern: every run fails. -/
def failsAlways (_ : Nat) : Bool := true

/-- Fixture: behavior type `B` deriving directly from the behavior base. -/
def bB : BehaviorType := { name := "B", bases := ["Behavior"] }

/-- Fixture: behavior type `C`, a subclass of `B`. -/
def bC : BehaviorType := { name := "C", bases := ["B", "Behavior"] }

/-- Fixture: behavior type `D`, a subclass of `B`. -/
def bD : BehaviorType := { name := "D", bases := ["B", "Behavior"] }

/-- Fixture: an exchange with agent 1 of behavior `B`, agent 2 of behavior
`C`, and agent 3 of behavior `D` whose mailbox is terminated. -/
def stDiscover : ThreadExchange :=
  { queues :=
      [(EntityId.agent 1, Queue.empty),
       (EntityId.agent 2, Queue.empty),
       (EntityId.agent 3, { messages := [], closed := true })]
    behaviors :=
      [(EntityId.agent 1, bB), (EntityId.agent 2, bC), (EntityId.agent 3, bD)] }

/-- Fixture: an exchange holding a user client mailbox and one open agent
mailbox. -/
def stTwo : ThreadExchange :=
  { queues := [(EntityId.client 1, Queue.empty), (EntityId.agent 2, Queue.empty)]
    behaviors := [(EntityId.agent 2, bB)] }

/-- Fixture: an exchange whose only mailbox, of agent 1, is terminated. -/
def stClosed : ThreadExchange :=
  { queues := [(EntityId.agent 1, { messages := [], closed := true })]
    behaviors := [] }

/-- Fixture: a ping message towards agent 1. -/
def msgPing : Message :=
  { tag := 0, src := EntityId.client 0, dest := EntityId.agent 1, label := 0
    body := .pingRequest }

/- ### Helper lemmas -/

/-- Lookup after mapping a function over the values of an association
list. -/
theorem alistLookup_map {α β : Type} (f : α → β) (l : List (EntityId × α)) (k : EntityId) :
    alistLookup (l.map (fun p => (p.1, f p.2))) k = (alistLookup l k).map f := by
  induction l with
  | nil => rfl
  | cons p rest ih =>
      obtain ⟨k2, v⟩ := p
      by_cases h : k2 = k <;> simp [alistLookup, h, ih]

/-- On an association list with distinct keys, membership of a pair is the
same as lookup finding its value. -/
theorem alistLookup_mem_iff {α : Type} (l : List (EntityId × α)) (k : EntityId) (v : α)
    (hnd : (l.map Prod.fst).Nodup) :
    (k, v) ∈ l ↔ alistLookup l k = some v := by
  induction l with
  | nil => simp [alistLookup]
  | cons p rest ih =>
      obtain ⟨k2, v2⟩ := p
      simp only [List.map_cons, List.nodup_cons] at hnd
      obtain ⟨hk2, hrest⟩ := hnd
      by_cases h : k2 = k
      · subst h
        simp only [alistLookup, if_true, List.mem_cons, Option.some.injEq,
          Prod.mk.injEq, true_and, eq_self_iff_true, if_pos]
        constructor
        · rintro (rfl | hmem)
          · rfl
          · exact absurd (List.mem_map_of_mem Prod.fst hmem) hk2
        · rintro rfl; exact Or.inl rfl
      · simp only [alistLookup, if_neg h, List.mem_cons]
        rw [← ih hrest]
        constructor
        · rintro (hpair | hmem)
          · cases hpair; exact absurd rfl h
          · exact hmem
        · exact Or.inr

/-- Characterization of the `discover` liveness filter: an id survives iff
it was in the input and its queue exists and is open. -/
theorem aliveFilter_mem (st : ThreadExchange) (l : List EntityId) (out : List EntityId)
    (h : st.aliveFilter l = some out) (x : EntityId) :
    x ∈ out ↔ (x ∈ l ∧ ∃ q, alistLookup st.queues x = some q ∧ q.closed = false) := by
  induction l generalizing out with
  | nil =>
      simp only [ThreadExchange.aliveFilter, Option.some.injEq] at h
      subst h; simp
  | cons a rest ih =>
      simp only [ThreadExchange.aliveFilter] at h
      cases hq : alistLookup st.queues a with
      | none => rw [hq] at h; exact absurd h (by simp)
      | some q =>
          rw [hq] at h
          cases ht : st.aliveFilter rest with
          | none => rw [ht] at h; exact absurd h (by simp)
          | some tail =>
              rw [ht] at h
              simp only [Option.some.injEq] at h
              subst h
              have htail := ih tail ht
              by_cases hc : q.closed
              · rw [if_pos hc, htail]
                constructor
                · rintro ⟨hmem, hopen⟩
                  exact ⟨List.mem_cons_of_mem _ hmem, hopen⟩
                · rintro ⟨hmem, q2, hl, hcl⟩
                  rcases List.mem_cons.mp hmem with rfl | hmem2
                  · rw [hq] at hl
                    cases hl
                    exact absurd hc (by simp [hcl])
                  · exact ⟨hmem2, q2, hl, hcl⟩
              · rw [if_neg hc]
                by_cases hx : x = a
                · subst hx
                  constructor
                  · intro _
                    exact ⟨List.mem_cons_self _ _, q, hq, by simpa using hc⟩
                  · intro _
                    exact List.mem_cons_self _ _
                · constructor
                  · intro hmem
                    rcases List.mem_cons.mp hmem with rfl | hmem2
                    · exact absurd rfl hx
                    · have hm := (htail).mp hmem2
                      exact ⟨List.mem_cons_of_mem _ hm.1, hm.2⟩
                  · rintro ⟨hmem, hopen⟩
                    rcases List.mem_cons.mp hmem with rfl | hmem2
                    · exact absurd rfl hx
                    · exact List.mem_cons_of_mem _ ((htail).mpr ⟨hmem2, hopen⟩)

/- ### Claim theorems -/

/-- C1: the claim says an agent with restart budget N is run up to N+1
times, all but the last run with `terminate_on_error` overridden to false
and the last with the user config, so that with budget 2 and setup failing
exactly twice `launch` yields a working agent after 2 setup exceptions.
The code disagrees: `Manager._run_agent_in_executor` with `max_retries=2`
and two failures performs exactly 2 runs (both with the overridden config)
and re-raises — the successful third run never happens; with
`max_retries=1` it performs a single overridden run and re-raises, i.e. it
never retries at all. `Launcher._run_agent` with `max_restarts=2` likewise
stops after 2 runs (the second already with the user config) and swallows
the error; only `max_restarts=3` reaches the succeeding third run. -/
theorem restartBudgetOffByOne :
    managerRun true failsFirstTwo 2 = ([(1, false), (2, false)], .raised)
    ∧ launcherRun 2 true failsFirstTwo = ([(1, false), (2, true)], .failedExit)
    ∧ managerRun true failsAlways 1 = ([(1, false)], .raised)
    ∧ launcherRun 1 true failsAlways = ([(1, true)], .failedExit)
    ∧ launcherRun 3 true failsFirstTwo
        = ([(1, false), (2, false), (3, true)], .completed) := by decide

/-- C2: the claim says a cancelled `RemoteHandle.action` awaiter sends a
`CancelRequest` referencing the original tag before propagating the
cancellation. The code disagrees: the effect trace of
`RemoteHandle.action` contains exactly one send — the `ActionRequest`
itself — and the method installs no cancellation handler, so every
cancellation truncates the trace and no prefix of it ever sends a
`CancelRequest`. -/
theorem actionNeverSendsCancel (src dest : EntityId) (label tag : Nat) (act : String) :
    effectSends (actionEffects src dest label tag act)
      = [{ tag := tag, src := src, dest := dest, label := label
           body := .actionRequest act }]
    ∧ ∀ n : Nat,
        ((effectSends ((actionEffects src dest label tag act).take n)).all
          (fun m => !m.body.isCancelRequest)) = true := by
  refine ⟨rfl, ?_⟩
  intro n
  match n with
  | 0 => rfl
  | 1 => rfl
  | 2 => rfl
  | 3 => rfl
  | k + 4 =>
      have hlen : (actionEffects src dest label tag act).length ≤ k + 4 := by
        simp [actionEffects]
      rw [List.take_of_length_le hlen]
      rfl

/-- C3: the claim says `Manager.close` awaits all agent tasks, closes the
exchange client, shuts down the executors, and raises the agents' errors
aggregated as one exception group. The code disagrees: the per-task
`acb.task.result()` loop re-raises the first stored agent error before
the exchange client is closed or any executor is shut down, and no
grouping happens (the source's own TODO admits the aggregation is
missing), even though `raise_exceptions` — which would build the group —
exists in `academy/exception.py`. -/
theorem closeRaisesFirstAgentErrorEarly :
    managerClose [some 1, some 2]
      = { raised := some 1, exchangeClosed := false, executorsShutdown := false }
    ∧ raiseExceptions [1, 2] = .group [1, 2] := by decide

/-- C4 counterexample: the claim says closing one exchange client never
terminates another entity's mailbox. For the thread exchange this is
false: in `stTwo` the mailbox of agent 2 is open, yet after the client of
mailbox `client 1` closes, agent 2's mailbox is closed. -/
theorem threadCloseClosesPeerMailbox :
    alistLookup stTwo.queues (EntityId.agent 2)
      = some { messages := [], closed := false }
    ∧ alistLookup
        ((BoundThreadClient.mk (EntityId.client 1) false).closeClient stTwo).queues
        (EntityId.agent 2)
      = some { messages := [], closed := true } := by decide

/-- C4 amended: `BoundThreadExchangeClient.close` closes every mailbox of
the shared exchange state — its own and every other entity's — so after a
client close no mailbox of that exchange remains open. -/
theorem threadCloseTerminatesEveryMailbox (c : BoundThreadClient) (st : ThreadExchange)
    (k : EntityId) (q : Queue)
    (h : alistLookup (c.closeClient st).queues k = some q) :
    q.closed = true := by
  simp only [BoundThreadClient.closeClient] at h
  rw [alistLookup_map] at h
  obtain ⟨q0, _, rfl⟩ := Option.map_eq_some'.mp h
  rfl

/-- Witness for the amended C4 theorem at a concrete exchange. -/
theorem threadCloseTerminatesEveryMailbox_witness :
    alistLookup
        ((BoundThreadClient.mk (EntityId.client 1) false).closeClient stTwo).queues
        (EntityId.agent 2)
      = some { messages := [], closed := true }
    ∧ ({ messages := [], closed := true } : Queue).closed = true :=
  ⟨by decide,
   threadCloseTerminatesEveryMailbox ⟨EntityId.client 1, false⟩ stTwo
     (EntityId.agent 2) { messages := [], closed := true } (by decide)⟩

/-- C5: sending to a missing mailbox fails with BadEntity and to a
terminated mailbox with MailboxTerminated (thread exchange), and over the
HTTP transport a send to an unregistered agent receives a 404 from the
server and makes the client raise BadEntity. -/
theorem sendFailureModes :
    (∀ (st : ThreadExchange) (uid : EntityId) (m : Message),
        alistLookup st.queues uid = none →
        st.send uid m = .error (.badEntityId uid))
    ∧ (∀ (st : ThreadExchange) (uid : EntityId) (m : Message) (q : Queue),
        alistLookup st.queues uid = some q → q.closed = true →
        st.send uid m = .error (.mailboxTerminated uid))
    ∧ (∀ (registry : List (EntityId × MailboxStatus)) (aid : EntityId),
        alistLookup registry aid = none →
        httpServerPutMessage registry aid = 404
          ∧ httpSend registry aid = .error (.badEntityId aid)) := by
  refine ⟨?_, ?_, ?_⟩
  · intro st uid m h
    unfold ThreadExchange.send
    rw [h]
  · intro st uid m q h hc
    unfold ThreadExchange.send
    rw [h]
    simp [Queue.put, hc]
  · intro registry aid h
    have hcode : httpServerPutMessage registry aid = 404 := by
      unfold httpServerPutMessage
      rw [h]
      rfl
    refine ⟨hcode, ?_⟩
    unfold httpSend httpSendResult
    rw [hcode]
    rfl

/-- Witness for C5 at concrete exchanges. -/
theorem sendFailureModes_witness :
    ThreadExchange.send { queues := [], behaviors := [] } (EntityId.agent 1) msgPing
        = .error (.badEntityId (EntityId.agent 1))
    ∧ stClosed.send (EntityId.agent 1) msgPing
        = .error (.mailboxTerminated (EntityId.agent 1))
    ∧ (httpServerPutMessage [] (EntityId.agent 3) = 404
        ∧ httpSend [] (EntityId.agent 3) = .error (.badEntityId (EntityId.agent 3))) :=
  ⟨sendFailureModes.1 _ _ msgPing rfl,
   sendFailureModes.2.1 stClosed _ msgPing { messages := [], closed := true }
     (by decide) (by decide),
   sendFailureModes.2.2 [] _ rfl⟩

/-- C6: `discover` returns exactly the registered agents whose mailbox is
not terminated and whose behavior equals the query (no subclasses) or
whose behavior ancestry contains the query (with subclasses); terminated
agents are never returned. -/
theorem discoverExactness (st : ThreadExchange) (b : BehaviorType) (allow : Bool)
    (out : List EntityId)
    (hnd : (st.behaviors.map Prod.fst).Nodup)
    (hdisc : st.discover b allow = some out) (aid : EntityId) :
    aid ∈ out ↔
      ∃ t q, alistLookup st.behaviors aid = some t
        ∧ alistLookup st.queues aid = some q ∧ q.closed = false
        ∧ (if allow then b.name ∈ t.mro else t = b) := by
  unfold ThreadExchange.discover at hdisc
  rw [aliveFilter_mem st _ out hdisc aid]
  constructor
  · rintro ⟨hfound, q, hq, hcl⟩
    rcases List.mem_filterMap.mp hfound with ⟨⟨k, t⟩, hmem, hcond⟩
    by_cases hcb : (decide (t = b) || (allow && pyIsSubcls t b)) = true
    · rw [if_pos hcb] at hcond
      cases hcond
      refine ⟨t, q, (alistLookup_mem_iff _ _ _ hnd).mp hmem, hq, hcl, ?_⟩
      cases allow with
      | true =>
          simp only [Bool.true_and, Bool.or_eq_true, decide_eq_true_eq,
            pyIsSubcls] at hcb
          simp only [if_true]
          rcases hcb with rfl | hsub
          · exact List.mem_cons_self _ _
          · exact hsub
      | false =>
          simp only [Bool.false_and, Bool.or_false, decide_eq_true_eq] at hcb
          simpa using hcb
    · rw [if_neg hcb] at hcond
      cases hcond
  · rintro ⟨t, q, hbt, hq, hcl, hcond⟩
    refine ⟨?_, q, hq, hcl⟩
    apply List.mem_filterMap.mpr
    refine ⟨(aid, t), (alistLookup_mem_iff _ _ _ hnd).mpr hbt, ?_⟩
    have hcb : (decide (t = b) || (allow && pyIsSubcls t b)) = true := by
      cases allow with
      | true =>
          simp only [Bool.true_and, Bool.or_eq_true, decide_eq_true_eq, pyIsSubcls]
          exact Or.inr (by simpa using hcond)
      | false =>
          simp only [Bool.false_and, Bool.or_false, decide_eq_true_eq]
          simpa using hcond
    rw [if_pos hcb]

/-- Witness for C6 at the ancestry scenario: behaviors B, C<:B, D<:B with
D terminated; `discover(B, allow_subclasses=true)` returns agents 1 and 2
and the characterization holds for agent 2. -/
theorem discoverExactness_witness :
    EntityId.agent 2 ∈ [EntityId.agent 1, EntityId.agent 2]
      ↔ ∃ t q, alistLookup stDiscover.behaviors (EntityId.agent 2) = some t
          ∧ alistLookup stDiscover.queues (EntityId.agent 2) = some q
          ∧ q.closed = false
          ∧ (if (true : Bool) then bB.name ∈ t.mro else t = bB) :=
  discoverExactness stDiscover bB true [EntityId.agent 1, EntityId.agent 2]
    (by decide) (by decide) (EntityId.agent 2)

/-- C7: registering an already registered, still-active agent id is a
no-op leaving mailbox and behavior unchanged, and terminating a missing
or already-terminated mailbox is a no-op. -/
theorem registerTerminateIdempotent :
    (∀ (st : ThreadExchange) (aid : EntityId) (t : BehaviorType) (q : Queue),
        alistLookup st.queues aid = some q → q.closed = false →
        st.registerAgent aid t = st)
    ∧ (∀ (st : ThreadExchange) (uid : EntityId),
        alistLookup st.queues uid = none → st.terminate uid = st)
    ∧ (∀ (st : ThreadExchange) (uid : EntityId) (q : Queue),
        alistLookup st.queues uid = some q → q.closed = true →
        st.terminate uid = st) := by
  refine ⟨?_, ?_, ?_⟩
  · intro st aid t q h hc
    unfold ThreadExchange.registerAgent
    rw [h]
    simp [hc]
  · intro st uid h
    unfold ThreadExchange.terminate
    rw [h]
  · intro st uid q h hc
    unfold ThreadExchange.terminate
    rw [h]
    simp [hc]

/-- Witness for C7 at concrete exchanges. -/
theorem registerTerminateIdempotent_witness :
    stTwo.registerAgent (EntityId.agent 2) bC = stTwo
    ∧ ThreadExchange.terminate { queues := [], behaviors := [] } (EntityId.agent 9)
        = { queues := [], behaviors := [] }
    ∧ stClosed.terminate (EntityId.agent 1) = stClosed :=
  ⟨registerTerminateIdempotent.1 stTwo _ bC Queue.empty (by decide) (by decide),
   registerTerminateIdempotent.2.1 _ _ (by decide),
   registerTerminateIdempotent.2.2 stClosed _ { messages := [], closed := true }
     (by decide) (by decide)⟩

/-- C8: the claim says `get_handle` on the client's own mailbox id fails
with an error and never yields a self-targeting handle. The code
disagrees: `BoundExchangeClient.get_handle` checks only that the id is an
`AgentId`, so a client bound to agent mailbox 7 obtains a handle to its
own mailbox without any error. -/
theorem getHandleAllowsOwnMailbox :
    baseGetHandle (EntityId.agent 7) (EntityId.agent 7)
      = .ok { agentId := EntityId.agent 7 } := rfl

/-- C9 counterexample: the claim says `Manager.get_handle` returns the
cached handle while it is open. The code disagrees: with an open handle
(identity 0) cached for agent 1, the call returns a freshly built handle
(identity 5), not the cached object. -/
theorem managerGetHandleIgnoresCache :
    (managerGetHandle
        { handles := [(EntityId.agent 1, { agentId := EntityId.agent 1, handleId := 0 })]
          nextHandleId := 5 } (EntityId.agent 1)).1
      = { agentId := EntityId.agent 1, handleId := 5 }
    ∧ ({ agentId := EntityId.agent 1, handleId := 5 } : MgrHandle)
        ≠ { agentId := EntityId.agent 1, handleId := 0 } := by decide

/-- C9 amended: `Manager.get_handle` always creates (and caches) a fresh
handle, never returning the cached one: the guard `not handle.closed()`
is always false because `RemoteHandle` has no `closed` attribute, so the
call resolves through `__getattr__` to a truthy unawaited coroutine. -/
theorem managerGetHandleAlwaysCreatesFresh (st : ManagerState) (aid : EntityId) :
    (managerGetHandle st aid).1.handleId = st.nextHandleId
    ∧ (managerGetHandle st aid).2.nextHandleId = st.nextHandleId + 1 := by
  have hguard : notHandleClosedGuard false = false := by decide
  unfold managerGetHandle
  cases hl : alistLookup st.handles aid with
  | none => exact ⟨rfl, rfl⟩
  | some h => simp [hguard, managerNewHandle]

/-- C10: binding a thread-exchange client to an existing mailbox id
always fails: `BoundThreadExchangeClient.__init__` reads the local `cid`,
assigned only on the mailbox-creating branch, so the agent-binding branch
raises `UnboundLocalError` before completing. -/
theorem threadBindToExistingMailboxRaises (st : ThreadExchange) (eid : EntityId)
    (freshUid : Nat) (hasHandler : Bool) (q : Queue)
    (h : alistLookup st.queues eid = some q) :
    threadClientInit st (some eid) freshUid hasHandler
      = .error (.unboundLocal "cid") := by
  simp [threadClientInit, h]

/-- Witness for C10: binding to the registered agent mailbox 2 of `stTwo`
raises the unbound-local error. -/
theorem threadBindToExistingMailboxRaises_witness :
    threadClientInit stTwo (some (EntityId.agent 2)) 42 true
      = .error (.unboundLocal "cid") :=
  threadBindToExistingMailboxRaises stTwo (EntityId.agent 2) 42 true Queue.empty
    (by decide)

end Academy
